/-
Verification of the Tesseract-OCR-Translation pipeline (Django app
`translator`): a shallow embedding of the data model (models.py), the
request handlers (views.py), the upload validation (forms.py), and the
OCR / translation / rendering helpers (utils.py), with theorems settling
the specification's claims about them.
-/
import Mathlib

namespace Translator

/-! ## String helpers -/

/-- Associativity of string append, proved by unfolding to the underlying
character lists. -/
theorem str_append_assoc (a b c : String) : a ++ b ++ c = a ++ (b ++ c) := by
  obtain ⟨la⟩ := a
  obtain ⟨lb⟩ := b
  obtain ⟨lc⟩ := c
  show String.mk (la ++ lb ++ lc) = String.mk (la ++ (lb ++ lc))
  rw [List.append_assoc]

/-- Appending the empty string on the right is the identity. -/
theorem str_append_empty (a : String) : a ++ "" = a := by
  obtain ⟨la⟩ := a
  show String.mk (la ++ []) = String.mk la
  rw [List.append_nil]

/-- Appending the empty string on the left is the identity. -/
theorem str_empty_append (a : String) : "" ++ a = a := by
  obtain ⟨la⟩ := a
  rfl

/-- Split a character list on a separator character; mirrors Python
`s.split(sep)` for a one-character separator: the result always has one
piece more than there are separators, and pieces may be empty. -/
def splitOnChar (sep : Char) : List Char → List (List Char)
  | [] => [[]]
  | c :: cs =>
    match splitOnChar sep cs with
    | [] => [[]]
    | h :: t => if c = sep then [] :: h :: t else (c :: h) :: t

/-- Python `s.split(sep)` for a one-character separator, on strings. -/
def pySplitOn (sep : Char) (s : String) : List String :=
  (splitOnChar sep s.data).map String.mk

/-- Python `s.lower()`: lowercase every character. -/
def pyLower (s : String) : String := ⟨s.data.map Char.toLower⟩

/-! ## Filesystem model

The repository's side effects on stored files (`os.remove`, `img.save`,
`open(...).write`, `shutil.copy`) are modelled over an association list
from paths to file contents; a write replaces any previous content at the
same path. -/

/-- Content of a stored file, tagged by the producing renderer. -/
inductive FileData where
  | text (s : String)
  | docx (s : String)
  | pdf (s : String)
  | image (format : String) (canvas : List (Nat × String))
deriving DecidableEq, Repr

/-- A filesystem: an association list from path to file content. -/
def FS := List (String × FileData)

instance : DecidableEq FS := by
  unfold FS
  infer_instance

/-- Look up the content stored at a path. -/
def fsGet : FS → String → Option FileData
  | [], _ => none
  | (k, v) :: t, p => if k = p then some v else fsGet t p

/-- Remove the file at a path, if present (models
`if os.path.isfile(path): os.remove(path)`). -/
def fsRemove : FS → String → FS
  | [], _ => []
  | (k, v) :: t, p => if k = p then fsRemove t p else (k, v) :: fsRemove t p

/-- Write content at a path, replacing any previous content there. -/
def fsWrite (fs : FS) (p : String) (v : FileData) : FS :=
  (p, v) :: fsRemove fs p

/-- Reading after a removal: the removed path is gone, others unchanged. -/
theorem fsGet_fsRemove (fs : FS) (p q : String) :
    fsGet (fsRemove fs p) q = if q = p then none else fsGet fs q := by
  induction fs with
  | nil => simp [fsRemove, fsGet]
  | cons h t ih =>
    obtain ⟨k, v⟩ := h
    by_cases hqp : q = p
    · subst hqp
      by_cases hkq : k = q
      · simp [fsRemove, hkq, ih]
      · simp [fsRemove, fsGet, hkq, ih]
    · by_cases hkp : k = p
      · subst hkp
        have hkq : k ≠ q := fun h => hqp h.symm
        simp [fsRemove, fsGet, hkq, ih, hqp]
      · by_cases hkq : k = q
        · subst hkq
          simp [fsRemove, fsGet, hkp, ih, hqp]
        · simp [fsRemove, fsGet, hkp, hkq, ih, hqp]

/-- Reading after a write: the written path holds the new content, others
are unchanged. -/
theorem fsGet_fsWrite (fs : FS) (p q : String) (v : FileData) :
    fsGet (fsWrite fs p v) q = if q = p then some v else fsGet fs q := by
  by_cases hqp : q = p
  · simp [fsWrite, fsGet, hqp]
  · have hpq : p ≠ q := fun h => hqp h.symm
    simp [fsWrite, fsGet, hpq, hqp, fsGet_fsRemove]

/-! ## OCR adapter (utils.py: ocr_pdf)

The OCR engine itself (pytesseract) and the PDF rasterizer (pdf2image)
are external collaborators; `ocr_pdf` is embedded as a function of the
ordered list of per-page texts the OCR engine returns. -/

/-- The literal page delimiter the PDF OCR loop prepends to each page's
text (utils.py line 77). -/
def pageDelim (n : Nat) : String := "\n\n--- Page " ++ toString n ++ " ---\n\n"

/-- Embedding of utils.py `ocr_pdf`: starting from the empty string, the
loop appends, for the i-th page (0-based), the delimiter for page i+1
followed by that page's extracted text. -/
def ocr_pdf (pages : List String) : String :=
  (pages.foldl (fun (acc : String × Nat) t =>
    (acc.1 ++ pageDelim (acc.2 + 1) ++ t, acc.2 + 1)) ("", 0)).1

/-- Spec-side description of the PDF OCR concatenation: the concatenation,
in page order, of the delimiter for page n followed by that page's text,
pages numbered from `n` upward. -/
def pageConcatSpec : Nat → List String → String
  | _, [] => ""
  | n, t :: rest => pageDelim n ++ t ++ pageConcatSpec (n + 1) rest

/-- Accumulator generalization of the PDF OCR loop. -/
theorem ocr_pdf_foldl_eq (pages : List String) :
    ∀ (acc : String) (n : Nat),
      (pages.foldl (fun (a : String × Nat) t =>
        (a.1 ++ pageDelim (a.2 + 1) ++ t, a.2 + 1)) (acc, n)).1 =
      acc ++ pageConcatSpec (n + 1) pages := by
  induction pages with
  | nil => intro acc n; simp [pageConcatSpec, str_append_empty]
  | cons t rest ih =>
    intro acc n
    rw [List.foldl_cons, ih]
    simp [pageConcatSpec, str_append_assoc]

/-! ## Translation adapter (views.py: translate_view; utils.py: translate_text)

The DeepL API itself is an external collaborator; the embedding records
the argument tuple the view passes to `translate_text`. -/

/-- The fixed Tesseract-to-DeepL language lookup table
(views.py lines 104-116). -/
def tesseract_to_deepl : List (String × String) :=
  [("eng", "EN"), ("fra", "FR"), ("deu", "DE"), ("spa", "ES"), ("ita", "IT"),
   ("por", "PT"), ("rus", "RU"), ("jpn", "JA"), ("chi_sim", "ZH"),
   ("nld", "NL"), ("pol", "PL")]

/-- Python `dict.get`: the value stored under a key, or `none` when the
key is absent (keys of the embedded tables are distinct). -/
def dictGet : List (String × String) → String → Option String
  | [], _ => none
  | (k, v) :: t, key => if k = key then some v else dictGet t key

/-- The argument tuple passed to the DeepL `translate_text` call. -/
structure TranslateCall where
  text : String
  source_lang : Option String
  target_lang : String
deriving DecidableEq, Repr

/-- Embedding of the translate-and-create part of views.py
`translate_view`: the source language passed to the translation call is
the lookup-table image of the OCR result's language code
(`tesseract_to_deepl.get(source_lang)`), `none` when absent. -/
def translate_view_call (ocrText ocrLang target : String) : TranslateCall :=
  { text := ocrText
    source_lang := dictGet tesseract_to_deepl ocrLang
    target_lang := target }

/-- In a table with pairwise-distinct keys, a stored pair is looked up
to its value. -/
theorem dictGet_eq_some_of_mem (d : List (String × String)) (k v : String)
    (hnd : (d.map Prod.fst).Nodup) (h : (k, v) ∈ d) : dictGet d k = some v := by
  induction d with
  | nil => cases h
  | cons e t ih =>
    obtain ⟨ek, ev⟩ := e
    simp only [List.map_cons, List.nodup_cons] at hnd
    rcases List.mem_cons.mp h with heq | hmem
    · cases heq
      simp [dictGet]
    · have hk : ¬ ek = k := by
        intro he
        subst he
        exact hnd.1 (List.mem_map.mpr ⟨(ek, v), hmem, rfl⟩)
      simp only [dictGet, if_neg hk]
      exact ih hnd.2 hmem

/-- A key absent from a table is looked up to `none`. -/
theorem dictGet_eq_none_of_not_mem_keys (d : List (String × String))
    (key : String) (h : key ∉ d.map Prod.fst) : dictGet d key = none := by
  induction d with
  | nil => rfl
  | cons e t ih =>
    obtain ⟨k, v⟩ := e
    simp only [List.map_cons, List.mem_cons, not_or] at h
    have hk : ¬ k = key := fun hk => h.1 hk.symm
    simp only [dictGet, if_neg hk]
    exact ih h.2

/-! ## Upload validation (forms.py: DocumentUploadForm.clean_file) -/

/-- Document processing status (models.py PROCESSING_STATUS). -/
inductive DocStatus where
  | pending
  | processing
  | completed
  | failed
deriving DecidableEq, Repr

/-- The upload extensions accepted by `clean_file` (forms.py line 18). -/
def supported_upload_types : List String :=
  ["pdf", "png", "jpg", "jpeg", "tiff", "bmp", "gif"]

/-- Python `name.split('.')[-1].lower()`: the lowercased last
dot-separated component of a filename. -/
def file_ext (name : String) : String :=
  pyLower ((pySplitOn '.' name).getLastD "")

/-- Embedding of forms.py `clean_file`: the lowercased extension is
accepted when it is in the supported list, otherwise a ValidationError
is raised. -/
def clean_file (name : String) : Except String String :=
  let t := file_ext name
  if t ∈ supported_upload_types then .ok t
  else .error "Unsupported file type. Please upload PDF, PNG, JPEG, TIFF, BMP, or GIF files."

/-- The fields of a freshly created Document row relevant to upload:
models.py gives `status` the default value pending, and `clean_file`
stores the lowercased extension in `file_type`. -/
structure DocumentUploadRow where
  file_type : String
  status : DocStatus
deriving DecidableEq, Repr

/-- Embedding of views.py `upload_view` (POST): a valid form saves a
Document row (file_type from `clean_file`, status defaulting to
pending); an invalid form creates no row. -/
def upload_view_post (name : String) : Option DocumentUploadRow :=
  match clean_file name with
  | .ok t => some { file_type := t, status := .pending }
  | .error _ => none

/-! ## OCR view (views.py: ocr_view)

Per-document state visible to `ocr_view`: the Document's status field and
its 0-or-1 OCRResult row (a OneToOneField). The outcome of the external
`perform_ocr` call is a parameter: `.ok text` when OCR succeeds, `.error
e` when it raises. -/

/-- The per-document state `ocr_view` reads and writes: the status field
and the optional OCRResult row, stored as (text, language). -/
structure OcrViewState where
  status : DocStatus
  ocr_result : Option (String × String)
deriving DecidableEq, Repr

/-- Embedding of views.py `ocr_view` on a POST with a valid form. If an
OCRResult already exists the handler redirects without touching state.
Otherwise it sets status to processing, runs OCR, and either creates the
OCRResult and sets status to completed, or catches the exception and
sets status to failed (the intermediate processing value is overwritten
before the handler returns in both branches). -/
def ocr_view_post (st : OcrViewState) (outcome : Except String String)
    (lang : String) : OcrViewState :=
  if st.ocr_result.isSome then st
  else
    match outcome with
    | .ok text => { status := .completed, ocr_result := some (text, lang) }
    | .error _ => { status := .failed, ocr_result := st.ocr_result }

/-! ## Translation text mutation (views.py: output_format_view lines 181-185) -/

/-- Embedding of the text-update step of `output_format_view`: the stored
Translation.text is overwritten by the submitted edited text exactly when
the two differ; the Bool records whether a mutation (a `translation.save()`)
happened. -/
def output_post_text_update (stored edited : String) : String × Bool :=
  if edited ≠ stored then (edited, true) else (stored, false)

/-- Number of mutations of Translation.text across a sequence of
output-generation POSTs, starting from the text the row was created
with. -/
def mutCount : String → List String → Nat
  | _, [] => 0
  | stored, edited :: rest =>
    let step := output_post_text_update stored edited
    (if step.2 then 1 else 0) + mutCount step.1 rest

/-! ## Data model and deletion cascade (models.py)

Rows of the four tables, and the deletion of a Document.
`Document.delete` (models.py lines 35-40) removes the stored upload file
and then calls the framework delete. The cascade itself is implemented
by the web framework (`on_delete=models.CASCADE`), not by code under
src/. -/

/-- A Document row (models.py `Document`). -/
structure DocumentRow where
  id : Nat
  file : String
  file_type : String
  status : DocStatus
deriving DecidableEq, Repr

/-- An OCRResult row (models.py `OCRResult`). -/
structure OCRResultRow where
  id : Nat
  document_id : Nat
  text : String
  language : String
deriving DecidableEq, Repr

/-- A Translation row (models.py `Translation`). -/
structure TranslationRow where
  id : Nat
  ocr_result_id : Nat
  text : String
  source_language : String
  target_language : String
deriving DecidableEq, Repr

/-- An OutputFile row (models.py `OutputFile`). -/
structure OutputFileRow where
  id : Nat
  translation_id : Nat
  file : String
  file_type : String
deriving DecidableEq, Repr

/-- The four tables of the data model. -/
structure DB where
  documents : List DocumentRow
  ocr_results : List OCRResultRow
  translations : List TranslationRow
  output_files : List OutputFileRow
deriving DecidableEq, Repr

/-- The ids of the OCRResult rows belonging to a document. -/
def ocrIdsOfDoc (db : DB) (docId : Nat) : List Nat :=
  (db.ocr_results.filter (fun r => decide (r.document_id = docId))).map (·.id)

/-- The ids of the Translation rows belonging to a document (through its
OCRResult rows). -/
def translationIdsOfDoc (db : DB) (docId : Nat) : List Nat :=
  (db.translations.filter
    (fun t => decide (t.ocr_result_id ∈ ocrIdsOfDoc db docId))).map (·.id)

/-- The OutputFile rows belonging to a document (through its Translation
rows). -/
def outputFilesOfDoc (db : DB) (docId : Nat) : List OutputFileRow :=
  db.output_files.filter
    (fun o => decide (o.translation_id ∈ translationIdsOfDoc db docId))

/-- Modelled from the spec: the cascade behaviour of deleting a Document
is implemented by the web framework (`on_delete=models.CASCADE`), which
is not code under src/. Following the spec's account, deleting a
Document removes its stored upload file from the filesystem
(models.py `Document.delete`), cascades deletion of its OCRResult, all
Translations and all OutputFiles rows, and removes each OutputFile's
stored file from the filesystem too (models.py `OutputFile.delete`). -/
def document_delete (db : DB) (fs : FS) (d : DocumentRow) : DB × FS :=
  let fs1 := fsRemove fs d.file
  let outs := outputFilesOfDoc db d.id
  let fs2 := outs.foldl (fun acc o => fsRemove acc o.file) fs1
  ({ documents := db.documents.filter (fun x => decide (x.id ≠ d.id))
     ocr_results := db.ocr_results.filter (fun r => decide (r.document_id ≠ d.id))
     translations := db.translations.filter
       (fun t => !decide (t.ocr_result_id ∈ ocrIdsOfDoc db d.id))
     output_files := db.output_files.filter
       (fun o => !decide (o.translation_id ∈ translationIdsOfDoc db d.id)) },
   fs2)

/-- A fold of removals never brings an absent path back. -/
theorem fsGet_foldl_remove_of_none (L : List OutputFileRow) :
    ∀ (fs : FS) (p : String), fsGet fs p = none →
      fsGet (L.foldl (fun acc o => fsRemove acc o.file) fs) p = none := by
  induction L with
  | nil => intro fs p h; exact h
  | cons o t ih =>
    intro fs p h
    simp only [List.foldl_cons]
    apply ih
    rw [fsGet_fsRemove]
    by_cases hp : p = o.file
    · simp [hp]
    · simp [hp, h]

/-- A fold of removals removes the file of every row it ranges over. -/
theorem fsGet_foldl_remove_of_mem (L : List OutputFileRow) :
    ∀ (fs : FS) (o : OutputFileRow), o ∈ L →
      fsGet (L.foldl (fun acc x => fsRemove acc x.file) fs) o.file = none := by
  induction L with
  | nil => intro fs o h; cases h
  | cons a t ih =>
    intro fs o h
    simp only [List.foldl_cons]
    rcases List.mem_cons.mp h with rfl | hmem
    · apply fsGet_foldl_remove_of_none
      rw [fsGet_fsRemove]
      simp
    · exact ih _ o hmem

/-! ## Python string.replace -/

/-- Fuel-bounded worker for `pyReplace`: replaces occurrences of `p` by
`r` left to right, non-overlapping, scanning one character at a time.
The fuel is the length of the scanned list, which bounds the number of
steps since every step consumes at least one character. -/
def pyReplaceAux (p r : List Char) : Nat → List Char → List Char
  | 0, l => l
  | _ + 1, [] => []
  | fuel + 1, c :: cs =>
    if (c :: cs).take p.length = p then
      r ++ pyReplaceAux p r fuel ((c :: cs).drop p.length)
    else
      c :: pyReplaceAux p r fuel cs

/-- Python `s.replace(pat, rep)`: every non-overlapping occurrence of
`pat` in `s`, scanned left to right, is replaced by `rep` (the
empty-pattern case is irrelevant to the embedded code and left as the
identity). -/
def pyReplace (s pat rep : String) : String :=
  if pat.data = [] then s
  else ⟨pyReplaceAux pat.data rep.data s.data.length s.data⟩

/-! ## Output renderers (utils.py: create_*_file, generate_output_file)

The rendering libraries (fpdf, reportlab, python-docx, PIL) are external
collaborators. What the claims need from the pdf and docx chains is
their tier structure: which tier runs, what path is written, what path
is returned. Whether each library tier raises is a parameter
(`RenderEnv`), as is the PIL font's pixel-width function used by the
image renderer's layout loop. -/

/-- Environment of external-library outcomes for one render request. -/
structure RenderEnv where
  fontLen : String → Nat
  pdfTier1 : Except String Unit
  pdfTier2 : Except String Unit
  wkhtmltopdf : Bool
  docxTier1 : Except String Unit
  docxTier2 : Except String Unit

/-- Embedding of utils.py `create_text_file`: write the text verbatim to
the output path and return that path. -/
def create_text_file (text : String) (fs : FS) (output_path : String) :
    FS × String :=
  (fsWrite fs output_path (.text text), output_path)

/-- Embedding of utils.py `create_docx_file`: tier 1 (font-customized
document), on exception tier 2 (plain document); both write the document
to the output path; failure of both tiers is terminal. -/
def create_docx_file (env : RenderEnv) (text : String) (fs : FS)
    (output_path : String) : Except String (FS × String) :=
  match env.docxTier1 with
  | .ok _ => .ok (fsWrite fs output_path (.docx text), output_path)
  | .error e =>
    match env.docxTier2 with
    | .ok _ => .ok (fsWrite fs output_path (.docx text), output_path)
    | .error e2 =>
      .error ("Error creating Word document: " ++ e ++ " -> " ++ e2)

/-- Embedding of utils.py `create_pdf_file`: tier 1 (fpdf), on exception
tier 2 (reportlab), on exception tier 3 — write the raw text to a
temporary text file and attempt an external wkhtmltopdf conversion; if
that tool is unavailable, copy the text file to the output path with
`.pdf` replaced by `.txt` (Python `output_path.replace('.pdf', '.txt')`)
and return that rewritten path instead of raising. -/
def create_pdf_file (env : RenderEnv) (text : String) (fs : FS)
    (output_path : String) : Except String (FS × String) :=
  match env.pdfTier1 with
  | .ok _ => .ok (fsWrite fs output_path (.pdf text), output_path)
  | .error _ =>
    match env.pdfTier2 with
    | .ok _ => .ok (fsWrite fs output_path (.pdf text), output_path)
    | .error _ =>
      if env.wkhtmltopdf then
        .ok (fsWrite fs output_path (.pdf text), output_path)
      else
        let txt_path := pyReplace output_path ".pdf" ".txt"
        .ok (fsWrite fs txt_path (.text text), txt_path)

/-! ### Image renderer (utils.py: create_image_file) -/

/-- In-progress state of the image renderer: the canvases already
flushed to the output path (in flush order), the current canvas as a
list of (y-coordinate, drawn text) entries, and the vertical cursor. -/
structure ImgState where
  saves : List (List (Nat × String))
  canvas : List (Nat × String)
  y : Nat
deriving DecidableEq, Repr

/-- Draw a string at the cursor and advance it by the 20-pixel line
spacing. -/
def drawAt (st : ImgState) (s : String) : ImgState :=
  { st with canvas := st.canvas ++ [(st.y, s)], y := st.y + 20 }

/-- When the cursor passes the bottom margin (y > height - 20), save the
current canvas to the output path, start a fresh canvas and reset the
cursor (utils.py lines 517-524 and 536-543); otherwise no change. -/
def flushIfOverflow (height : Nat) (st : ImgState) : ImgState :=
  if st.y > height - 20 then
    { saves := st.saves ++ [st.canvas], canvas := [], y := 20 }
  else st

/-- Python `line.split()` on space-separated text: split on spaces,
dropping empty pieces. -/
def pySplit (s : String) : List String :=
  (pySplitOn ' ' s).filter (fun w => w ≠ "")

/-- The word-wrapping inner loop of `create_image_file` (utils.py lines
506-524): accumulate words into the current line while it fits in
width - 40 pixels; otherwise draw the accumulated line, move the cursor
down, flush on overflow, and start again from the overflowing word.
Returns the state and the leftover accumulated line. -/
def wrapWords (len : String → Nat) (width height : Nat) :
    List String → String → ImgState → ImgState × String
  | [], cur, st => (st, cur)
  | w :: ws, cur, st =>
    let test := if cur ≠ "" then cur ++ " " ++ w else w
    if len test ≤ width - 40 then
      wrapWords len width height ws test st
    else
      let st1 := drawAt st cur
      let st2 := flushIfOverflow height st1
      wrapWords len width height ws w st2

/-- One iteration of the outer line loop of `create_image_file`: a line
wider than width - 40 is word-wrapped (drawing the leftover line if
non-empty), a fitting line is drawn directly; afterwards the overflow
check runs. -/
def imageProcessLine (len : String → Nat) (width height : Nat)
    (st : ImgState) (line : String) : ImgState :=
  let st1 :=
    if len line > width - 40 then
      let res := wrapWords len width height (pySplit line) "" st
      if res.2 ≠ "" then drawAt res.1 res.2 else res.1
    else drawAt st line
  flushIfOverflow height st1

/-- The renderer state after processing every line of the text on the
fixed 1000 x 1400 canvas, starting at cursor y = 20. -/
def imageFinalState (len : String → Nat) (text : String) : ImgState :=
  (pySplitOn '\n' text).foldl (imageProcessLine len 1000 1400)
    { saves := [], canvas := [], y := 20 }

/-- Embedding of utils.py `create_image_file`: render the text line by
line; every mid-loop flush saves the current canvas to the output path,
and the final canvas is saved to the same output path at the end; the
output path is returned. -/
def create_image_file (len : String → Nat) (text : String) (fs : FS)
    (output_path : String) (format : String) : FS × String :=
  let stf := imageFinalState len text
  let fs1 := stf.saves.foldl
    (fun acc c => fsWrite acc output_path (.image format c)) fs
  (fsWrite fs1 output_path (.image format stf.canvas), output_path)

/-- Embedding of utils.py `generate_output_file`: dispatch on the format
token to the matching renderer; an unrecognized token raises. -/
def generate_output_file (env : RenderEnv) (text output_format : String)
    (fs : FS) (output_path : String) : Except String (FS × String) :=
  if output_format = "txt" then .ok (create_text_file text fs output_path)
  else if output_format = "docx" then create_docx_file env text fs output_path
  else if output_format = "pdf" then create_pdf_file env text fs output_path
  else if output_format = "jpeg" then
    .ok (create_image_file env.fontLen text fs output_path "JPEG")
  else if output_format = "png" then
    .ok (create_image_file env.fontLen text fs output_path "PNG")
  else .error ("Unsupported output format: " ++ output_format)

/-! ## Output-format view (views.py: output_format_view) -/

/-- The stored OutputFile row fields the render request sets. -/
structure OutputRow where
  file : String
  file_type : String
deriving DecidableEq, Repr

/-- Result of one POST to `output_format_view`: the created OutputFile
row (none when generation raised and the exception was caught), the
filesystem, and the Translation.text after the update step. -/
structure OutputPostResult where
  row : Option OutputRow
  fs : FS
  translation_text : String
deriving DecidableEq

/-- Embedding of views.py `output_format_view` on a POST with a valid
form. The view builds the output path `outputs/{uuid}.{format}`, calls
`generate_output_file`, ignores the path that call returns, and creates
the OutputFile row pointing at the built path; afterwards it overwrites
Translation.text when the submitted edited text differs. On an exception
no row is created and the stored text is untouched. (The MEDIA_ROOT
prefix, common to the generation path and the row's resolved path, is
dropped uniformly.) -/
def output_format_post (env : RenderEnv) (translation_text edited fmt uuidStr : String)
    (fs : FS) : OutputPostResult :=
  let filename := uuidStr ++ "." ++ fmt
  let output_path := "outputs/" ++ filename
  match generate_output_file env edited fmt fs output_path with
  | .error _ => { row := none, fs := fs, translation_text := translation_text }
  | .ok res =>
    { row := some { file := output_path, file_type := fmt }
      fs := res.1
      translation_text := (output_post_text_update translation_text edited).1 }

/-! ## Concrete instances used by the witnesses -/

/-- A render environment in which both pdf library tiers raise and the
external wkhtmltopdf tool is unavailable. -/
def envFail : RenderEnv :=
  { fontLen := String.length
    pdfTier1 := .error "fpdf missing"
    pdfTier2 := .error "reportlab missing"
    wkhtmltopdf := false
    docxTier1 := .ok ()
    docxTier2 := .ok () }

/-- A 69-line text: at 20 pixels per line it exactly fills the 1400-pixel
canvas, forcing one mid-loop flush of the image renderer. -/
def text69 : String := String.join (List.intersperse "\n" (List.replicate 69 "a"))

/-! ## Claims -/

/-- Claim C6: for every PDF whose rasterization yields n page images, the
text returned by ocr_pdf is the concatenation, in page order, of the
literal delimiter for page k (1-indexed) immediately followed by page
k's extracted text; in particular for a 3-page PDF the three page
markers occur in order, each preceding that page's text. -/
theorem C6_ocr_pdf_page_concat :
    (∀ pages : List String, ocr_pdf pages = pageConcatSpec 1 pages) ∧
    (∀ t1 t2 t3 : String,
      ocr_pdf [t1, t2, t3] =
        pageDelim 1 ++ t1 ++ pageDelim 2 ++ t2 ++ pageDelim 3 ++ t3) := by
  have hgen : ∀ pages : List String, ocr_pdf pages = pageConcatSpec 1 pages := by
    intro pages
    show (pages.foldl _ ("", 0)).1 = _
    rw [ocr_pdf_foldl_eq pages "" 0]
    exact str_empty_append _
  refine ⟨hgen, fun t1 t2 t3 => ?_⟩
  rw [hgen]
  simp [pageConcatSpec, str_append_assoc, str_append_empty]

/-- Claim C7: the source language passed to the translation call is the
lookup-table image of the OCRResult's language code when that code is in
the fixed Tesseract-to-DeepL table (in particular eng maps to EN), and
is unset for every code absent from the table (in particular heb). -/
theorem C7_translate_source_mapping :
    (∀ text target, (translate_view_call text "eng" target).source_lang = some "EN") ∧
    (∀ text target, (translate_view_call text "heb" target).source_lang = none) ∧
    (∀ text target code v, (code, v) ∈ tesseract_to_deepl →
      (translate_view_call text code target).source_lang = some v) ∧
    (∀ text target code, code ∉ tesseract_to_deepl.map Prod.fst →
      (translate_view_call text code target).source_lang = none) := by
  refine ⟨fun text target => rfl, fun text target => rfl, ?_, ?_⟩
  · intro text target code v h
    exact dictGet_eq_some_of_mem _ _ _ (by decide) h
  · intro text target code h
    exact dictGet_eq_none_of_not_mem_keys _ _ h

/-- Witness for C7 at concrete language codes: eng is mapped, heb is
auto-detect, fra is in the table, kor is not. -/
theorem C7_witness :
    (translate_view_call "hi" "eng" "JA").source_lang = some "EN" ∧
    (translate_view_call "hi" "heb" "JA").source_lang = none ∧
    (translate_view_call "hi" "fra" "JA").source_lang = some "FR" ∧
    (translate_view_call "hi" "kor" "JA").source_lang = none :=
  ⟨C7_translate_source_mapping.1 "hi" "JA",
   C7_translate_source_mapping.2.1 "hi" "JA",
   C7_translate_source_mapping.2.2.1 "hi" "JA" "fra" "FR" (by decide),
   C7_translate_source_mapping.2.2.2 "hi" "JA" "kor" (by decide)⟩

/-- Claim C8: for every uploaded file whose lowercased extension is one
of the supported ones, upload creates a Document whose file_type equals
the lowercase extension and whose status is pending; for every other
extension, validation rejects the upload and no Document row is
created. -/
theorem C8_upload_validation :
    (∀ name, file_ext name ∈ supported_upload_types →
      upload_view_post name = some { file_type := file_ext name, status := .pending }) ∧
    (∀ name, file_ext name ∉ supported_upload_types →
      upload_view_post name = none) := by
  constructor
  · intro name h
    simp [upload_view_post, clean_file, h]
  · intro name h
    simp [upload_view_post, clean_file, h]

/-- Witness for C8: an uppercase supported extension is accepted
lowercased with status pending; an unsupported extension creates no
row. -/
theorem C8_witness :
    upload_view_post "photo.JPG" = some { file_type := "jpg", status := .pending } ∧
    upload_view_post "malware.exe" = none := by
  constructor
  · exact (C8_upload_validation.1 "photo.JPG" (by decide)).trans (by decide)
  · exact C8_upload_validation.2 "malware.exe" (by decide)

/-- Claim C5: for a document without an existing OCRResult, a successful
OCR call leaves exactly one OCRResult row and status completed; a
raising OCR call leaves zero OCRResult rows and status failed, the rest
of the state unchanged. -/
theorem C5_ocr_result_lifecycle (st : OcrViewState) (lang : String)
    (h : st.ocr_result = none) :
    (∀ text, ocr_view_post st (.ok text) lang =
      { status := .completed, ocr_result := some (text, lang) }) ∧
    (∀ e, ocr_view_post st (.error e) lang =
      { status := .failed, ocr_result := none }) := by
  constructor
  · intro text
    simp [ocr_view_post, h]
  · intro e
    simp [ocr_view_post, h]

/-- Witness for C5 on a pending document with no OCRResult. -/
theorem C5_witness :
    ocr_view_post { status := .pending, ocr_result := none } (.ok "text") "eng" =
      { status := .completed, ocr_result := some ("text", "eng") } ∧
    ocr_view_post { status := .pending, ocr_result := none } (.error "boom") "eng" =
      { status := .failed, ocr_result := none } :=
  ⟨(C5_ocr_result_lifecycle { status := .pending, ocr_result := none } "eng" rfl).1 "text",
   (C5_ocr_result_lifecycle { status := .pending, ocr_result := none } "eng" rfl).2 "boom"⟩

/-- Claim C10: on a POST with a valid form (for a document without an
existing OCRResult, the path on which the handler sets status to
processing), the handler never returns with status processing: a
successful run ends completed and a caught exception ends failed. -/
theorem C10_status_never_processing (st : OcrViewState)
    (outcome : Except String String) (lang : String)
    (h : st.ocr_result = none) :
    (ocr_view_post st outcome lang).status ≠ .processing ∧
    (∀ text, outcome = .ok text → (ocr_view_post st outcome lang).status = .completed) ∧
    (∀ e, outcome = .error e → (ocr_view_post st outcome lang).status = .failed) := by
  cases outcome with
  | ok text => refine ⟨?_, ?_, ?_⟩ <;> simp [ocr_view_post, h]
  | error e => refine ⟨?_, ?_, ?_⟩ <;> simp [ocr_view_post, h]

/-- Witness for C10 on a pending document with no OCRResult, for both a
successful and a failing OCR call. -/
theorem C10_witness :
    (ocr_view_post { status := .pending, ocr_result := none } (.ok "t") "eng").status = .completed ∧
    (ocr_view_post { status := .pending, ocr_result := none } (.error "x") "eng").status = .failed ∧
    (ocr_view_post { status := .pending, ocr_result := none } (.error "x") "eng").status ≠ .processing :=
  ⟨(C10_status_never_processing { status := .pending, ocr_result := none } (.ok "t") "eng" rfl).2.1 "t" rfl,
   (C10_status_never_processing { status := .pending, ocr_result := none } (.error "x") "eng" rfl).2.2 "x" rfl,
   (C10_status_never_processing { status := .pending, ocr_result := none } (.error "x") "eng" rfl).1⟩

/-- Claim C2 as stated is false on the code: Translation.text is not
mutated at most once after creation. Counterexample: a Translation
created with text a and two output-generation POSTs submitting b then c
is mutated twice. -/
theorem C2_counterexample :
    ¬ (∀ (createdText : String) (posts : List String),
        mutCount createdText posts ≤ 1) :=
  fun h => absurd (h "a" ["b", "c"]) (by decide)

/-- Claim C2 amended: Translation.text is mutated only at
output-generation time and only when the submitted edited text differs
from the stored text; each output-generation request mutates it at most
once, so across a sequence of requests the number of mutations is
bounded by the number of requests (not by one). -/
theorem C2_amended_mutation_per_request :
    (∀ stored edited, output_post_text_update stored edited =
      if edited = stored then (stored, false) else (edited, true)) ∧
    (∀ createdText edited, mutCount createdText [edited] =
      if edited = createdText then 0 else 1) ∧
    (∀ createdText posts, mutCount createdText posts ≤ posts.length) := by
  refine ⟨?_, ?_, ?_⟩
  · intro stored edited
    by_cases h : edited = stored <;> simp [output_post_text_update, h]
  · intro createdText edited
    by_cases h : edited = createdText <;>
      simp [mutCount, output_post_text_update, h]
  · intro createdText posts
    induction posts generalizing createdText with
    | nil => simp [mutCount]
    | cons e rest ih =>
      by_cases h : e = createdText
      · have hstep : mutCount createdText (e :: rest) = mutCount createdText rest := by
          simp [mutCount, output_post_text_update, h]
        rw [hstep]
        exact Nat.le_trans (ih createdText) (by simp)
      · have hstep : mutCount createdText (e :: rest) = 1 + mutCount e rest := by
          simp [mutCount, output_post_text_update, h]
        rw [hstep]
        have := ih e
        simp only [List.length_cons]
        omega

/-- Claim C1: deleting a Document removes its stored upload file from
the filesystem, cascades deletion of the Document row, its OCRResult,
all Translations and all OutputFiles rows, and removes each
OutputFile's stored file from the filesystem too. -/
theorem C1_document_delete_cascades (db : DB) (fs : FS) (d : DocumentRow) :
    fsGet (document_delete db fs d).2 d.file = none ∧
    (∀ x ∈ (document_delete db fs d).1.documents, x.id ≠ d.id) ∧
    (∀ r ∈ (document_delete db fs d).1.ocr_results, r.document_id ≠ d.id) ∧
    (∀ t ∈ (document_delete db fs d).1.translations,
      t.ocr_result_id ∉ ocrIdsOfDoc db d.id) ∧
    (∀ o ∈ (document_delete db fs d).1.output_files,
      o.translation_id ∉ translationIdsOfDoc db d.id) ∧
    (∀ o ∈ outputFilesOfDoc db d.id,
      fsGet (document_delete db fs d).2 o.file = none) := by
  refine ⟨?_, ?_, ?_, ?_, ?_, ?_⟩
  · show fsGet ((outputFilesOfDoc db d.id).foldl
      (fun acc o => fsRemove acc o.file) (fsRemove fs d.file)) d.file = none
    apply fsGet_foldl_remove_of_none
    rw [fsGet_fsRemove]
    simp
  · intro x hx
    simp only [document_delete, List.mem_filter, decide_eq_true_eq] at hx
    exact hx.2
  · intro r hr
    simp only [document_delete, List.mem_filter, decide_eq_true_eq] at hr
    exact hr.2
  · intro t ht
    simp only [document_delete, List.mem_filter, Bool.not_eq_true',
      decide_eq_false_iff_not] at ht
    exact ht.2
  · intro o ho
    simp only [document_delete, List.mem_filter, Bool.not_eq_true',
      decide_eq_false_iff_not] at ho
    exact ho.2
  · intro o ho
    show fsGet ((outputFilesOfDoc db d.id).foldl
      (fun acc x => fsRemove acc x.file) (fsRemove fs d.file)) o.file = none
    exact fsGet_foldl_remove_of_mem _ _ o ho

/-- A one-document database with one OCRResult, one Translation and one
OutputFile, for the C1 witness. -/
def docX : DocumentRow :=
  { id := 1, file := "uploads/u1.pdf", file_type := "pdf", status := .completed }

/-- The OutputFile row of the C1 witness database. -/
def outX : OutputFileRow :=
  { id := 1, translation_id := 1, file := "outputs/o1.pdf", file_type := "pdf" }

/-- The C1 witness database. -/
def dbX : DB :=
  { documents := [docX]
    ocr_results := [{ id := 1, document_id := 1, text := "hello", language := "eng" }]
    translations := [{ id := 1, ocr_result_id := 1, text := "bonjour",
                       source_language := "eng", target_language := "FR" }]
    output_files := [outX] }

/-- The C1 witness filesystem, holding the upload file and the output
file. -/
def fsX : FS := [("uploads/u1.pdf", .text "u"), ("outputs/o1.pdf", .pdf "bonjour")]

/-- Witness for C1 on the concrete one-document database: both stored
files are gone and all cascaded tables are empty. -/
theorem C1_witness :
    fsGet (document_delete dbX fsX docX).2 "uploads/u1.pdf" = none ∧
    fsGet (document_delete dbX fsX docX).2 "outputs/o1.pdf" = none ∧
    (document_delete dbX fsX docX).1.documents = [] ∧
    (document_delete dbX fsX docX).1.ocr_results = [] ∧
    (document_delete dbX fsX docX).1.translations = [] ∧
    (document_delete dbX fsX docX).1.output_files = [] := by
  refine ⟨(C1_document_delete_cascades dbX fsX docX).1, ?_,
    by decide, by decide, by decide, by decide⟩
  exact (C1_document_delete_cascades dbX fsX docX).2.2.2.2.2 outX (by decide)

/-- Claim C4: when pdf tiers 1 and 2 both raise and the external
wkhtmltopdf tool is unavailable, create_pdf_file writes the raw text as
a plain-text file and returns the requested output path with .pdf
rewritten to .txt, rather than raising an error. -/
theorem C4_pdf_tier3_degrades (env : RenderEnv) (text : String) (fs : FS)
    (output_path e1 e2 : String)
    (h1 : env.pdfTier1 = .error e1) (h2 : env.pdfTier2 = .error e2)
    (h3 : env.wkhtmltopdf = false) :
    create_pdf_file env text fs output_path =
      .ok (fsWrite fs (pyReplace output_path ".pdf" ".txt") (.text text),
           pyReplace output_path ".pdf" ".txt") := by
  simp [create_pdf_file, h1, h2, h3]

/-- Witness for C4: with both library tiers raising and no wkhtmltopdf,
rendering hello to outputs/doc.pdf succeeds with the text file
outputs/doc.txt. -/
theorem C4_witness :
    create_pdf_file envFail "hello" [] "outputs/doc.pdf" =
      .ok ([("outputs/doc.txt", FileData.text "hello")], "outputs/doc.txt") :=
  (C4_pdf_tier3_degrades envFail "hello" [] "outputs/doc.pdf"
    "fpdf missing" "reportlab missing" rfl rfl rfl).trans
    (congrArg Except.ok (by decide))

/-- Claim C3: when rendering to jpeg/png needs more than one canvas
flush, each flush writes to the same output path as the final save, so
after create_image_file returns, the file stored at the output path
holds only the final canvas's content (earlier pages are overwritten). -/
theorem C3_image_overwrites_per_flush (len : String → Nat) (text : String)
    (fs : FS) (output_path format : String)
    (h : 1 ≤ (imageFinalState len text).saves.length) :
    (create_image_file len text fs output_path format).2 = output_path ∧
    fsGet (create_image_file len text fs output_path format).1 output_path =
      some (.image format (imageFinalState len text).canvas) := by
  constructor
  · rfl
  · show fsGet (fsWrite _ output_path _) output_path = _
    rw [fsGet_fsWrite]
    simp

set_option maxRecDepth 40000 in
/-- Witness for C3: the 69-line text forces one mid-loop flush, and the
stored file afterwards holds only the (empty) final canvas — the full
first page is lost. -/
theorem C3_witness :
    1 ≤ (imageFinalState String.length text69).saves.length ∧
    (imageFinalState String.length text69).saves.length = 1 ∧
    fsGet (create_image_file String.length text69 [] "outputs/p.png" "PNG").1
      "outputs/p.png" = some (.image "PNG" []) := by
  refine ⟨by decide, by decide, ?_⟩
  exact ((C3_image_overwrites_per_flush String.length text69 [] "outputs/p.png"
    "PNG" (by decide)).2).trans (by decide)

/-- Claim C9: for every successful render request the stored OutputFile
row's path is outputs/{uuid}.{requested format} — its extension always
equals the requested format — because the view ignores the path
generate_output_file returns; in particular after the pdf chain's
degraded tier the row still points at the .pdf path, where no file was
written, while the text landed at the .txt path. -/
theorem C9_outputfile_path_ignores_return (env : RenderEnv) :
    (∀ ttext edited fmt u fs r,
      (output_format_post env ttext edited fmt u fs).row = some r →
      r.file = "outputs/" ++ (u ++ "." ++ fmt) ∧ r.file_type = fmt) ∧
    (∀ ttext edited u fs e1 e2,
      env.pdfTier1 = .error e1 → env.pdfTier2 = .error e2 →
      env.wkhtmltopdf = false →
      fsGet fs ("outputs/" ++ (u ++ "." ++ "pdf")) = none →
      pyReplace ("outputs/" ++ (u ++ "." ++ "pdf")) ".pdf" ".txt" ≠
        "outputs/" ++ (u ++ "." ++ "pdf") →
      (output_format_post env ttext edited "pdf" u fs).row =
        some { file := "outputs/" ++ (u ++ "." ++ "pdf"), file_type := "pdf" } ∧
      fsGet (output_format_post env ttext edited "pdf" u fs).fs
        ("outputs/" ++ (u ++ "." ++ "pdf")) = none ∧
      fsGet (output_format_post env ttext edited "pdf" u fs).fs
        (pyReplace ("outputs/" ++ (u ++ "." ++ "pdf")) ".pdf" ".txt") =
        some (.text edited)) := by
  constructor
  · intro ttext edited fmt u fs r hrow
    simp only [output_format_post] at hrow
    cases hgen : generate_output_file env edited fmt fs ("outputs/" ++ (u ++ "." ++ fmt)) with
    | error e =>
      rw [hgen] at hrow
      cases hrow
    | ok res =>
      rw [hgen] at hrow
      simp only [Option.some.injEq] at hrow
      subst hrow
      exact ⟨rfl, rfl⟩
  · intro ttext edited u fs e1 e2 h1 h2 h3 hfresh hneq
    have hgen : generate_output_file env edited "pdf" fs ("outputs/" ++ (u ++ "." ++ "pdf")) =
        .ok (fsWrite fs
          (pyReplace ("outputs/" ++ (u ++ "." ++ "pdf")) ".pdf" ".txt") (.text edited),
          pyReplace ("outputs/" ++ (u ++ "." ++ "pdf")) ".pdf" ".txt") := by
      simp [generate_output_file, create_pdf_file, h1, h2, h3]
    refine ⟨?_, ?_, ?_⟩
    · simp only [output_format_post, hgen]
    · simp only [output_format_post, hgen]
      rw [fsGet_fsWrite]
      rw [if_neg (fun hc => hneq hc.symm)]
      exact hfresh
    · simp only [output_format_post, hgen]
      rw [fsGet_fsWrite]
      simp

/-- Witness for C9: row paths for a png render and for a degraded pdf
render of the edited text hola with uuid u1 on an empty filesystem. -/
theorem C9_witness :
    ({ file := "outputs/u1.png", file_type := "png" } : OutputRow).file =
      "outputs/" ++ ("u1" ++ "." ++ "png") ∧
    (output_format_post envFail "x" "hola" "pdf" "u1" []).row =
      some { file := "outputs/" ++ ("u1" ++ "." ++ "pdf"), file_type := "pdf" } ∧
    fsGet (output_format_post envFail "x" "hola" "pdf" "u1" []).fs
      ("outputs/" ++ ("u1" ++ "." ++ "pdf")) = none ∧
    fsGet (output_format_post envFail "x" "hola" "pdf" "u1" []).fs
      (pyReplace ("outputs/" ++ ("u1" ++ "." ++ "pdf")) ".pdf" ".txt") =
      some (.text "hola") := by
  have hpart2 := (C9_outputfile_path_ignores_return envFail).2 "x" "hola" "u1" []
    "fpdf missing" "reportlab missing" rfl rfl rfl (by decide) (by decide)
  have hpart1 := (C9_outputfile_path_ignores_return envFail).1 "x" "hola" "png" "u1" []
    { file := "outputs/u1.png", file_type := "png" } (by decide)
  exact ⟨hpart1.1, hpart2.1, hpart2.2.1, hpart2.2.2⟩

end Translator
